import Mathlib

set_option linter.unusedVariables false

/-!
Verification development for the `ums` academic-records service.

The definitions below are a shallow embedding of the Python source under
`src/`.  Pure functions become Lean functions, the SQLAlchemy session is
passed around as an explicit `DB` state, the wall clock is an explicit
`now : Int` argument (epoch seconds), and Python exceptions become an
`Except PyError` result.  External libraries that the repository calls but
does not contain (the passlib hasher and the jose JWT codec) are modelled by
small deterministic stand-ins, documented at their definitions.
-/

namespace UMS

/-- Python exception values that the embedded code can raise.
`http` models `fastapi.HTTPException`, `invalidUser` the custom
`InvalidUserException` of `src/services/auth.py`, `attributeError` and
`valueError` the builtin Python exceptions, and `exn` a plain `Exception`. -/
inductive PyError where
  | http (statusCode : Nat) (detail : String)
  | invalidUser (statusCode : Nat) (detail : String)
  | attributeError (msg : String)
  | valueError (msg : String)
  | exn (msg : String)
deriving Repr, DecidableEq

/-- Python `str(e)` on an exception value.  For `starlette.HTTPException`
the `__str__` method yields `"<status_code>: <detail>"`; for
`InvalidUserException` the constructor passes only the detail to
`Exception`, so `str(e)` is the detail alone; for the builtin exceptions
the message is the argument string. -/
def strOfError : PyError → String
  | .http s d => toString s ++ ": " ++ d
  | .invalidUser _ d => d
  | .attributeError m => m
  | .valueError m => m
  | .exn m => m

/-- Model of the external passlib `CryptContext.hash`: a deterministic,
injective encoding standing in for the salted hash (the services only ever
compare a stored hash against `verify` of a submitted plaintext). -/
def get_password_hash (password : String) : String :=
  "sha256_crypt$" ++ password

/-- Model of the external passlib `CryptContext.verify`: true exactly when
the stored hash was produced from the submitted plaintext. -/
def verify_password (plain_password hashed_password : String) : Bool :=
  get_password_hash plain_password == hashed_password

/-- The claim sets carried inside a JWT in this code base: an optional
`sub` claim, an optional `id` claim and the numeric `exp` claim
(epoch seconds). -/
structure Claims where
  sub : Option String := none
  id : Option String := none
  exp : Int := 0
deriving Repr, DecidableEq

/-- Model of an encoded JWT from the external jose library: the signed
payload together with the key and algorithm it was signed with (a signature
verifies exactly when decode is given the same key and algorithm). -/
structure JwtToken where
  claims : Claims
  key : String
  alg : String
deriving Repr, DecidableEq

/-- Model of `jose.jwt.encode`. -/
def jwtEncode (payload : Claims) (key alg : String) : JwtToken :=
  { claims := payload, key := key, alg := alg }

/-- Model of `jose.jwt.decode` at time `now`: returns the payload when the
signature verifies (same key, accepted algorithm) and the token is not
expired (RFC 7519: the current time must be strictly before `exp`);
otherwise `none`, standing for a raised `JWTError`. -/
def jwtDecode (token : JwtToken) (key : String) (algorithms : List String)
    (now : Int) : Option Claims :=
  if token.key == key && algorithms.contains token.alg && now < token.claims.exp then
    some token.claims
  else
    none

/-- The environment-sourced configuration of `src/config/settings.py`.
The two ttl values are modelled as whole minutes. -/
structure Config where
  SECRET_KEY : String
  ALGORITHM : String
  ACCESS_TOKEN_EXPIRE_MINUTES : Int
  REFRESH_TOKEN_EXPIRE_MINUTES : Int
deriving Repr, DecidableEq

/-- A row of the `users` table (`src/models/users.py`): id, email, stored
password hash, the `super_admin` role flag and the `disabled` flag. -/
structure UserRec where
  id : String
  email : String
  password : String
  super_admin : Bool := false
  disabled : Bool := false
deriving Repr, DecidableEq

/-- A row of the `teachers` table (`src/models/users.py`), with the fields
the points service reads. -/
structure TeacherRec where
  id : String
  user_id : String
deriving Repr, DecidableEq

/-- A row of the `points` table with exactly the columns
`src/models/points.py` declares: unlike every sibling model, the `Point`
model has no `deleted` column (only `deleted_at`), which is why every
`Point.deleted` reference in `src/services/points.py` raises
`AttributeError`. -/
structure PointRec where
  id : String
  class_id : String
  student_id : String
  teacher_id : String
  diligence : Int
  test : Int
  practice : Int
  final : Int
  deleted_at : Option Int := none
deriving Repr, DecidableEq

/-- The relational store the services read and write, passed explicitly in
place of the SQLAlchemy session. -/
structure DB where
  users : List UserRec := []
  teachers : List TeacherRec := []
  points : List PointRec := []
deriving Repr, DecidableEq

/-! ## `src/util/auth.py` -/

/-- The module-level `credentials_exception` of `src/util/auth.py`
(the detail dict is rendered as its description string). -/
def credentials_exception : PyError :=
  .http 401 "The access token expired"

/-- Embedding of `create_refresh_token` (`src/util/auth.py`): copies the
claims, stamps `exp := now` plus the delta (seconds; the default is 7
days), and signs with the server secret and algorithm. -/
def create_refresh_token (cfg : Config) (data : Claims)
    (expires_delta : Option Int) (now : Int) : JwtToken :=
  let expire : Int :=
    match expires_delta with
    | some d => now + d
    | none => now + 7 * 24 * 60 * 60
  jwtEncode { data with exp := expire } cfg.SECRET_KEY cfg.ALGORITHM

/-- Embedding of `validate_refresh_token` (`src/util/auth.py`): decode
with the server secret; return the `id` claim unless it is absent or empty
(Python `if not user_id`); any `JWTError` yields `None`. -/
def validate_refresh_token (cfg : Config) (refresh_token : JwtToken)
    (now : Int) : Option String :=
  match jwtDecode refresh_token cfg.SECRET_KEY [cfg.ALGORITHM] now with
  | none => none
  | some payload =>
    match payload.id with
    | none => none
    | some user_id => if user_id == "" then none else some user_id

/-! ## `src/services/auth.py` -/

/-- Embedding of `get_user`: missing email and missing user raise
`InvalidUserException` with status 404. -/
def get_user (db : DB) (email : Option String) : Except PyError UserRec :=
  match email with
  | none => .error (.invalidUser 404 "Email not provided")
  | some e =>
    match db.users.find? (fun u => u.email == e) with
    | none => .error (.invalidUser 404 "User not found")
    | some user => .ok user

/-- Embedding of `authenticate_user`: `get_user` either raises (the
`InvalidUserException` is re-raised) or returns a user; a password
mismatch returns `False`, modelled as `.ok none`. -/
def authenticate_user (db : DB) (email password : String) :
    Except PyError (Option UserRec) :=
  match get_user db (some email) with
  | .error e => .error e
  | .ok user =>
    if !verify_password password user.password then .ok none
    else .ok (some user)

/-- Embedding of `create_access_token`: stamps `exp := now` plus the delta
(seconds; the default branch is `timedelta(minutes=1)`), then signs with
the server secret and algorithm.  The UUID-to-string normalisation of the
`id` claim is the identity here because ids are already strings. -/
def create_access_token (cfg : Config) (data : Claims)
    (expires_delta : Option Int) (now : Int) : JwtToken :=
  let expire : Int :=
    match expires_delta with
    | some d => now + d
    | none => now + 60
  jwtEncode { data with exp := expire } cfg.SECRET_KEY cfg.ALGORITHM

/-- Embedding of `get_current_user`: a decode failure or an absent `sub`
claim raises the local 401 credentials exception.  When `sub` is present,
the code builds `TokenData(email=email)` — but `TokenData` in
`src/schemas/auth.py` declares only a `username` field, so the extra
keyword is ignored and the following `token_data.email` access raises
`AttributeError` before the user lookup is reached. -/
def get_current_user (cfg : Config) (token : JwtToken) (db : DB)
    (now : Int) : Except PyError UserRec :=
  match jwtDecode token cfg.SECRET_KEY [cfg.ALGORITHM] now with
  | none => .error (.http 401 "Could not validate credentials")
  | some payload =>
    match payload.sub with
    | none => .error (.http 401 "Could not validate credentials")
    | some _email =>
      .error (.attributeError "TokenData object has no attribute email")

/-- The shape of a successful login response
(`service_login_for_access_token`). -/
structure LoginResponse where
  access_token : JwtToken
  token_type : String
  user : UserRec
  expires_in : Int
  refresh_token : JwtToken
deriving Repr, DecidableEq

/-- Embedding of `service_login_for_access_token`.  The body runs under a
try whose handlers turn an `InvalidUserException` into an `HTTPException`
with the same status, and any other exception — including the 401
`HTTPException` raised for a wrong password — into an `HTTPException` with
status 400 and `str(e)` as detail. -/
def service_login_for_access_token (cfg : Config) (email password : String)
    (db : DB) (now : Int) : Except PyError LoginResponse :=
  let body : Except PyError LoginResponse :=
    match authenticate_user db email password with
    | .error e => .error e
    | .ok none => .error (.http 401 "Incorrect email or password")
    | .ok (some user) =>
      let access_token_expires : Int := 60 * cfg.ACCESS_TOKEN_EXPIRE_MINUTES
      let access_token := create_access_token cfg
        { sub := some user.email, id := some user.id } (some access_token_expires) now
      let refresh_token_expires : Int := 60 * cfg.REFRESH_TOKEN_EXPIRE_MINUTES
      let refresh_token := create_refresh_token cfg
        { sub := some user.email, id := some user.id } (some refresh_token_expires) now
      .ok { access_token := access_token, token_type := "bearer", user := user,
            expires_in := access_token_expires, refresh_token := refresh_token }
  match body with
  | .ok r => .ok r
  | .error (.invalidUser s d) => .error (.http s d)
  | .error e => .error (.http 400 (strOfError e))

/-- The shape of the `gpt_tokens_service` response. -/
structure TokenResponse where
  access_token : JwtToken
  token_type : String
  expires_in : Int
  refresh_token : JwtToken
deriving Repr, DecidableEq

/-- Embedding of `gpt_tokens_service`.  The `authorization_code` branch
calls `get_current_user_dep(code)`, which immediately evaluates
`bearer.credentials` on the string (or `None`) passed as `code`, raising
`AttributeError`; only the `refresh_token` branch can complete. -/
def gpt_tokens_service (cfg : Config) (grant_type : String)
    (refresh_token : Option JwtToken) (now : Int) :
    Except PyError TokenResponse :=
  let issue : String → Except PyError TokenResponse := fun user_id =>
    let access_token_expires : Int := 60 * cfg.ACCESS_TOKEN_EXPIRE_MINUTES
    let access_token := create_access_token cfg { id := some user_id }
      (some access_token_expires) now
    let refresh_token_expires : Int := 60 * cfg.REFRESH_TOKEN_EXPIRE_MINUTES
    let rotated_refresh_token := create_refresh_token cfg { id := some user_id }
      (some refresh_token_expires) now
    .ok { access_token := access_token, token_type := "bearer",
          expires_in := access_token_expires, refresh_token := rotated_refresh_token }
  if grant_type == "refresh_token" then
    match refresh_token with
    | none => .error credentials_exception
    | some rt =>
      match validate_refresh_token cfg rt now with
      | none => .error credentials_exception
      | some user_id => issue user_id
  else if grant_type == "authorization_code" then
    .error (.attributeError "str object has no attribute credentials")
  else
    .error credentials_exception

/-! ## `src/services/points.py`

Every query in this service filters on `Point.deleted`, but the `Point`
model (`src/models/points.py`) declares no such column, so building the
query raises `AttributeError` at the `Point.deleted` class-attribute
access — before any row is examined — and the service handlers only
catch `SQLAlchemyError`, so the error propagates.  The only reachable
non-crashing branch in the whole service is the 403 of `update_point`,
whose teacher lookup runs before the point query. -/

/-- A Python value that can appear in the dynamic `filters` dict passed
to `get_filtered_points`. -/
inductive Value where
  | str (s : String)
  | int (i : Int)
  | bool (b : Bool)
  | noneVal
deriving Repr, DecidableEq

/-- The `AttributeError` raised by evaluating `Point.deleted` on the
model class that does not declare that column. -/
def pointDeletedError : PyError :=
  .attributeError "type object Point has no attribute deleted"

/-- Embedding of `get_filtered_points`: line 59 builds
`db.query(Point).filter(Point.deleted == True)`, and the `Point.deleted`
attribute access raises before the dynamic filter loop, the super-admin
branch or the per-caller narrowing can run; the function never returns a
list. -/
def get_filtered_points (db : DB) (filters : List (String × Option Value))
    (user : UserRec) : Except PyError (List PointRec) :=
  .error pointDeletedError

/-- Embedding of `get_point_by_id`: the lookup on line 95 filters on
`Point.deleted`, so the call raises `AttributeError` before the record
lookup, the ownership check and the (already unreachable) 404 branch. -/
def get_point_by_id (db : DB) (point_id : String) (user : UserRec) :
    Except PyError PointRec :=
  .error pointDeletedError

/-- Embedding of `delete_point`: the lookup on line 119 filters on
`Point.deleted`, so the call raises `AttributeError` before the 404
check and the (itself broken) timestamp assignment; the store is never
changed. -/
def delete_point (db : DB) (point_id : String) : Except PyError DB :=
  .error pointDeletedError

/-- The `PointBaseSchema` payload of `update_point` under
`dict(exclude_unset=True)`: unset fields are absent. -/
structure PointUpdate where
  class_id : Option String := none
  student_id : Option String := none
  teacher_id : Option String := none
  diligence : Option Int := none
  test : Option Int := none
  practice : Option Int := none
  final : Option Int := none
deriving Repr, DecidableEq

/-- Embedding of `update_point`.  The teacher lookup (line 148) runs
first; a caller with no `Teacher` row and without `super_admin` gets 403
(lines 149-150).  Every other caller reaches the point query on line
152, whose filter arguments are evaluated left to right: after
`Point.id == point_id`, the `Point.deleted` access raises
`AttributeError` — before `teacher.id` is evaluated — so no update ever
succeeds and the 404 branch is unreachable. -/
def update_point (db : DB) (point_id : String) (update_data : PointUpdate)
    (user : UserRec) : Except PyError (PointRec × DB) :=
  match db.teachers.find? (fun t => t.user_id == user.id) with
  | none =>
    if user.super_admin == false then .error (.http 403 "Forbidden")
    else .error pointDeletedError
  | some _teacher => .error pointDeletedError

/-! ## `src/services/users.py` -/

/-- Embedding of `delete_user_by_id`.  A found user row is passed to
`db.delete` and the session is committed: the row is physically removed.
The 404 `HTTPException` of the missing-user branch is raised inside the
try and caught by the generic `except Exception` handler, which re-raises
it as a plain `Exception` wrapping `str(e)`. -/
def delete_user_by_id (db : DB) (user_id : String) : Except PyError DB :=
  match db.users.find? (fun u => u.id == user_id) with
  | none =>
    .error (.exn ("An unexpected error occurred: " ++ strOfError (.http 404 "User not found")))
  | some user =>
    .ok { db with users := db.users.filter (fun u => !(u.id == user.id)) }

end UMS

/-! ## `src/routes/auth/service.py` (password-reset subsystem)

This variant keeps its own user table (`src/routes/users/models.py`, with
integer ids) and a persisted `PasswordResetToken` table (`.models`).
Neither model file is present under `src/`; they are modelled from the
spec as noted below. -/

namespace Reset

/-- Model of the external passlib bcrypt hasher of
`src/routes/auth/service.py`, analogous to `UMS.get_password_hash`. -/
def get_password_hash (password : String) : String :=
  "bcrypt$" ++ password

/-- Modelled from the spec: the user rows of the absent
`src/routes/users/models.py`, with the integer `id` and `password` columns
that `update_user_password_by_id` touches. -/
structure RUser where
  id : Int
  password : String
deriving Repr, DecidableEq

/-- Modelled from the spec: the absent `PasswordResetToken` model — "a
one-time reset token row \x7buser_id, token, expires_at\x7d", with the
field names `user_id`, `reset_token` and `expires` that
`set_new_password` reads. -/
structure PasswordResetToken where
  user_id : Int
  reset_token : String
  expires : Int
deriving Repr, DecidableEq

/-- The store of the password-reset subsystem. -/
structure RState where
  users : List RUser := []
  reset_tokens : List PasswordResetToken := []
deriving Repr, DecidableEq

/-- Modelled from the spec: `check_user_existence_by_id` from the absent
`src/routes/users/services.py` — whether a user row with this id exists. -/
def check_user_existence_by_id (user_id : Int) (st : RState) : Bool :=
  st.users.any (fun u => u.id == user_id)

/-- Embedding of `update_user_password_by_id`: replace the stored password
of an existing user, or raise a 404 `HTTPException`. -/
def update_user_password_by_id (user_id : Int) (new_password : String)
    (st : RState) : Except UMS.PyError RState :=
  if check_user_existence_by_id user_id st then
    .ok { st with users := st.users.map (fun u =>
      if u.id == user_id then { u with password := new_password } else u) }
  else
    .error (.http 404 "User not found.")

/-- Embedding of `set_new_password`: if a reset row for `user_id` exists
(the first such row is taken), is unexpired (`now < expires`) and stores
exactly the submitted token, the password is replaced with the hash of the
new one, the row is deleted and `True` is returned; on every other path
`False` is returned and nothing is written.  A 404 from the password
update propagates. -/
def set_new_password (user_id : Int) (token : String) (new_password : String)
    (now : Int) (st : RState) : Except UMS.PyError (Bool × RState) :=
  match st.reset_tokens.find? (fun r => r.user_id == user_id) with
  | some reset_token =>
    if now < reset_token.expires then
      if reset_token.reset_token == token then
        match update_user_password_by_id user_id (get_password_hash new_password) st with
        | .error e => .error e
        | .ok st1 =>
          .ok (true, { st1 with reset_tokens := st1.reset_tokens.erase reset_token })
      else .ok (false, st)
    else .ok (false, st)
  | none => .ok (false, st)

end Reset

namespace UMS

/-! ## Helper instances and lemmas -/

/-- Decidable equality of results, used to evaluate concrete runs. -/
instance exceptDecEq {ε α : Type} [DecidableEq ε] [DecidableEq α] :
    DecidableEq (Except ε α) := fun x y =>
  match x, y with
  | .ok a, .ok b => if h : a = b then .isTrue (by rw [h]) else .isFalse (by simp [h])
  | .error a, .error b => if h : a = b then .isTrue (by rw [h]) else .isFalse (by simp [h])
  | .ok _, .error _ => .isFalse (by simp)
  | .error _, .ok _ => .isFalse (by simp)

/-- Characterisation of the decode model on the singleton algorithm list
used at every call site. -/
theorem jwtDecode_single (token : JwtToken) (key alg : String) (now : Int) :
    jwtDecode token key [alg] now =
      if token.key = key ∧ token.alg = alg ∧ now < token.claims.exp
      then some token.claims else none := by
  unfold jwtDecode
  by_cases h1 : token.key = key
  · by_cases h2 : token.alg = alg
    · by_cases h3 : now < token.claims.exp
      · simp [h1, h2, h3]
      · simp [h1, h2, h3]
    · simp [h1, h2]
  · simp [h1]

/-! ## Concrete fixtures used by witnesses and counterexamples -/

/-- A concrete configuration. -/
def cfg0 : Config :=
  { SECRET_KEY := "server-secret", ALGORITHM := "HS256",
    ACCESS_TOKEN_EXPIRE_MINUTES := 30, REFRESH_TOKEN_EXPIRE_MINUTES := 1440 }

/-- A concrete registered user whose stored hash matches the password
`secret`. -/
def alice : UserRec :=
  { id := "u1", email := "a@x.com", password := get_password_hash "secret" }

/-- A one-user store. -/
def db1 : DB := { users := [alice] }

/-! ## C5: encode/decode round trip -/

/-- C5: for every claims map carrying a subject claim and every positive
ttl, decoding the token produced by `create_access_token` with the same
secret and algorithm at any time before the ttl elapses succeeds and
yields a payload whose `sub` claim equals the encoded one. -/
theorem decode_encode_roundtrip (cfg : Config) (data : Claims)
    (ttl now t : Int) (hsub : data.sub.isSome) (hpos : 0 < ttl)
    (ht : t < now + ttl) :
    jwtDecode (create_access_token cfg data (some ttl) now) cfg.SECRET_KEY
        [cfg.ALGORITHM] t = some { data with exp := now + ttl } ∧
    (jwtDecode (create_access_token cfg data (some ttl) now) cfg.SECRET_KEY
        [cfg.ALGORITHM] t).map Claims.sub = some data.sub := by
  unfold create_access_token jwtEncode jwtDecode
  simp [ht]

/-- Witness for C5 at a concrete claims map, ttl 1800 s and decode time
100 s. -/
theorem decode_encode_roundtrip_witness :
    jwtDecode (create_access_token cfg0 { sub := some "a@x.com", id := some "u1" }
        (some 1800) 0) cfg0.SECRET_KEY [cfg0.ALGORITHM] 100 =
      some { sub := some "a@x.com", id := some "u1", exp := 1800 } ∧
    (jwtDecode (create_access_token cfg0 { sub := some "a@x.com", id := some "u1" }
        (some 1800) 0) cfg0.SECRET_KEY [cfg0.ALGORITHM] 100).map Claims.sub =
      some (some "a@x.com") :=
  decode_encode_roundtrip cfg0 { sub := some "a@x.com", id := some "u1" }
    1800 0 100 (by decide) (by decide) (by decide)

/-! ## C3: the refresh flow -/

/-- C3: a call of `gpt_tokens_service` with grant type `refresh_token`
returns a fresh access token bound to the same `id` subject exactly when
the supplied refresh token verifies under the server secret, is
unexpired, and carries a non-empty `id` claim; when the token is missing,
signed differently, expired, or has an absent or empty `id` claim, it
raises `credentials_exception` and returns no token. -/
theorem gpt_refresh_spec (cfg : Config) (rt? : Option JwtToken) (now : Int) :
    (∀ rt user_id, rt? = some rt →
      rt.key = cfg.SECRET_KEY → rt.alg = cfg.ALGORITHM →
      now < rt.claims.exp → rt.claims.id = some user_id → user_id ≠ "" →
      ∃ resp, gpt_tokens_service cfg "refresh_token" rt? now = .ok resp ∧
        resp.access_token.claims.id = some user_id) ∧
    ((rt? = none ∨ ∃ rt, rt? = some rt ∧
        (rt.key ≠ cfg.SECRET_KEY ∨ rt.alg ≠ cfg.ALGORITHM ∨
         rt.claims.exp ≤ now ∨ rt.claims.id = none ∨ rt.claims.id = some "")) →
      gpt_tokens_service cfg "refresh_token" rt? now = .error credentials_exception) := by
  constructor
  · rintro rt user_id rfl hkey halg hexp hid hne
    have hval : validate_refresh_token cfg rt now = some user_id := by
      unfold validate_refresh_token
      rw [jwtDecode_single, if_pos ⟨hkey, halg, hexp⟩]
      simp [hid, hne]
    refine ⟨{ access_token := create_access_token cfg { id := some user_id }
                (some (60 * cfg.ACCESS_TOKEN_EXPIRE_MINUTES)) now,
              token_type := "bearer",
              expires_in := 60 * cfg.ACCESS_TOKEN_EXPIRE_MINUTES,
              refresh_token := create_refresh_token cfg { id := some user_id }
                (some (60 * cfg.REFRESH_TOKEN_EXPIRE_MINUTES)) now }, ?_, ?_⟩
    · simp [gpt_tokens_service, hval]
    · simp [create_access_token, jwtEncode]
  · rintro (rfl | ⟨rt, rfl, hbad⟩)
    · simp [gpt_tokens_service]
    · have hval : validate_refresh_token cfg rt now = none := by
        unfold validate_refresh_token
        rw [jwtDecode_single]
        by_cases hc : rt.key = cfg.SECRET_KEY ∧ rt.alg = cfg.ALGORITHM ∧
            now < rt.claims.exp
        · rw [if_pos hc]
          rcases hbad with h | h | h | h | h
          · exact absurd hc.1 h
          · exact absurd hc.2.1 h
          · omega
          · simp [h]
          · simp [h]
        · rw [if_neg hc]
      simp [gpt_tokens_service, hval]

/-- A concrete valid refresh token for the C3 witness. -/
def rt0 : JwtToken :=
  { claims := { id := some "u1", exp := 999 },
    key := cfg0.SECRET_KEY, alg := cfg0.ALGORITHM }

/-- Witness for C3: the concrete token `rt0` is exchanged for an access
token with the same subject, and a missing refresh token is rejected. -/
theorem gpt_refresh_spec_witness :
    (∃ resp, gpt_tokens_service cfg0 "refresh_token" (some rt0) 0 = .ok resp ∧
      resp.access_token.claims.id = some "u1") ∧
    gpt_tokens_service cfg0 "refresh_token" none 0 = .error credentials_exception :=
  ⟨(gpt_refresh_spec cfg0 (some rt0) 0).1 rt0 "u1" rfl rfl rfl (by decide)
      rfl (by decide),
    (gpt_refresh_spec cfg0 none 0).2 (Or.inl rfl)⟩

/-! ## C6: shape of a successful login response -/

/-- A configuration with equal access and refresh ttls — a configuration
the spec permits (it only requires the refresh ttl to be at least the
access ttl). -/
def cfgEq : Config :=
  { SECRET_KEY := "server-secret", ALGORITHM := "HS256",
    ACCESS_TOKEN_EXPIRE_MINUTES := 30, REFRESH_TOKEN_EXPIRE_MINUTES := 30 }

/-- The one token that, under `cfgEq`, serves as both the access and the
refresh token of a login at time 0. -/
def tokEq : JwtToken :=
  jwtEncode { sub := some "a@x.com", id := some "u1", exp := 1800 }
    cfgEq.SECRET_KEY cfgEq.ALGORITHM

/-- C6 counterexample: under the spec-permitted equal-ttl configuration,
a successful login returns a response whose `refresh_token` and
`access_token` are the very same token — the identical payload
`(sub, id, exp)` signed with the same secret and algorithm — refuting
the claimed distinctness. -/
theorem equal_ttl_tokens_coincide :
    cfgEq.REFRESH_TOKEN_EXPIRE_MINUTES ≥ cfgEq.ACCESS_TOKEN_EXPIRE_MINUTES ∧
    service_login_for_access_token cfgEq "a@x.com" "secret" db1 0 =
      .ok { access_token := tokEq, token_type := "bearer", user := alice,
            expires_in := 1800, refresh_token := tokEq } := by
  refine ⟨by decide, by decide⟩

/-- C6 amended: every successful login response carries
`token_type = "bearer"` and an `expires_in` equal to the configured
access ttl in whole seconds, computed from the very same ttl that stamps
the access token `exp` claim (`exp = now + expires_in`, no drift); the
refresh token is distinct from the access token precisely when the
configured refresh ttl differs from the access ttl — under an equal-ttl
configuration the two tokens coincide. -/
theorem login_success_response (cfg : Config) (db : DB)
    (email password : String) (now : Int) (user : UserRec)
    (hauth : authenticate_user db email password = .ok (some user)) :
    ∃ resp, service_login_for_access_token cfg email password db now = .ok resp ∧
      resp.token_type = "bearer" ∧
      resp.expires_in = 60 * cfg.ACCESS_TOKEN_EXPIRE_MINUTES ∧
      resp.access_token.claims.exp = now + resp.expires_in ∧
      (resp.refresh_token ≠ resp.access_token ↔
        cfg.REFRESH_TOKEN_EXPIRE_MINUTES ≠ cfg.ACCESS_TOKEN_EXPIRE_MINUTES) := by
  refine ⟨{ access_token := create_access_token cfg
              { sub := some user.email, id := some user.id }
              (some (60 * cfg.ACCESS_TOKEN_EXPIRE_MINUTES)) now,
            token_type := "bearer", user := user,
            expires_in := 60 * cfg.ACCESS_TOKEN_EXPIRE_MINUTES,
            refresh_token := create_refresh_token cfg
              { sub := some user.email, id := some user.id }
              (some (60 * cfg.REFRESH_TOKEN_EXPIRE_MINUTES)) now },
    ?_, rfl, rfl, ?_, ?_⟩
  · simp [service_login_for_access_token, hauth]
  · simp [create_access_token, jwtEncode]
  · constructor
    · intro hne heq
      exact hne (by simp [create_access_token, create_refresh_token,
        jwtEncode, heq])
    · intro hne heq
      apply hne
      have hexp : now + 60 * cfg.REFRESH_TOKEN_EXPIRE_MINUTES =
          now + 60 * cfg.ACCESS_TOKEN_EXPIRE_MINUTES := by
        have := congrArg (fun t => t.claims.exp) heq
        simpa [create_access_token, create_refresh_token, jwtEncode] using this
      omega

/-- Witness for C6 amended: a concrete successful login of `alice` under
`cfg0`, whose refresh ttl differs from its access ttl. -/
theorem login_success_response_witness :
    ∃ resp, service_login_for_access_token cfg0 "a@x.com" "secret" db1 0 = .ok resp ∧
      resp.token_type = "bearer" ∧
      resp.expires_in = 60 * cfg0.ACCESS_TOKEN_EXPIRE_MINUTES ∧
      resp.access_token.claims.exp = 0 + resp.expires_in ∧
      (resp.refresh_token ≠ resp.access_token ↔
        cfg0.REFRESH_TOKEN_EXPIRE_MINUTES ≠ cfg0.ACCESS_TOKEN_EXPIRE_MINUTES) :=
  login_success_response cfg0 db1 "a@x.com" "secret" 0 alice (by decide)

/-! ## C1: distinguishability of the two login failures -/

/-- C1 counterexample: in a store where only `alice` is registered, a
login with an unknown email surfaces as 404 "User not found" while a
login with the known email and a wrong password surfaces as 400
"401: Incorrect email or password" — two observably different responses,
neither of which is the generic 401 category the claim requires for
both. -/
theorem login_failures_distinguishable :
    service_login_for_access_token cfg0 "b@x.com" "secret" db1 0 =
      .error (.http 404 "User not found") ∧
    service_login_for_access_token cfg0 "a@x.com" "wrong" db1 0 =
      .error (.http 400 "401: Incorrect email or password") ∧
    (Except.error (.http 404 "User not found") :
        Except PyError LoginResponse) ≠
      .error (.http 400 "401: Incorrect email or password") := by
  refine ⟨by decide, by decide, by decide⟩

/-- C1 amended: an unknown email fails with status 404 and detail
"User not found" (the `InvalidUserException` is forwarded unchanged),
while a known email with a wrong password fails with status 400 and
detail "401: Incorrect email or password" (the intended 401 is caught by
the catch-all handler and re-wrapped); the two failures are therefore
observably different. -/
theorem login_failure_statuses (cfg : Config) (db : DB)
    (email password : String) (now : Int) :
    (db.users.find? (fun u => u.email == email) = none →
      service_login_for_access_token cfg email password db now =
        .error (.http 404 "User not found")) ∧
    (∀ user, db.users.find? (fun u => u.email == email) = some user →
      verify_password password user.password = false →
      service_login_for_access_token cfg email password db now =
        .error (.http 400 "401: Incorrect email or password")) := by
  constructor
  · intro hnone
    simp [service_login_for_access_token, authenticate_user, get_user, hnone]
  · intro user hfind hbad
    simp [service_login_for_access_token, authenticate_user, get_user, hfind,
      hbad, strOfError]
    decide

/-- Witness for C1 amended, at the concrete store of `alice`. -/
theorem login_failure_statuses_witness :
    service_login_for_access_token cfg0 "b@x.com" "secret" db1 0 =
      .error (.http 404 "User not found") ∧
    service_login_for_access_token cfg0 "a@x.com" "wrong" db1 0 =
      .error (.http 400 "401: Incorrect email or password") :=
  ⟨(login_failure_statuses cfg0 db1 "b@x.com" "secret" 0).1 (by decide),
    (login_failure_statuses cfg0 db1 "a@x.com" "wrong" 0).2 alice (by decide)
      (by decide)⟩

/-! ## C4: token validation -/

/-- A token whose signature verifies, whose expiry is in the future, and
whose `sub` claim is present but empty. -/
def tokEmptySub : JwtToken :=
  { claims := { sub := some "", id := none, exp := 100 },
    key := cfg0.SECRET_KEY, alg := cfg0.ALGORITHM }

/-- C4 counterexample: for the validly signed, unexpired token whose
`sub` claim is the empty string — a token the claim requires to be
answered with the 401 credentials exception — `get_current_user` instead
raises `AttributeError` (the `TokenData(email=...)` object has no `email`
attribute), not the 401 credentials exception. -/
theorem empty_subject_not_401 :
    tokEmptySub.claims.sub = some "" ∧
    jwtDecode tokEmptySub cfg0.SECRET_KEY [cfg0.ALGORITHM] 0 =
      some tokEmptySub.claims ∧
    get_current_user cfg0 tokEmptySub db1 0 =
      .error (.attributeError "TokenData object has no attribute email") ∧
    get_current_user cfg0 tokEmptySub db1 0 ≠
      .error (.http 401 "Could not validate credentials") := by
  refine ⟨rfl, by decide, by decide, by decide⟩

/-- C4 amended: a token is accepted only if its signature verifies, the
current time is strictly before its `exp` claim, and its subject claim is
present — and in fact `get_current_user` never succeeds at all: whenever
the signature fails, the token is expired, or the `sub` claim is absent,
it raises the 401 credentials exception, while a present `sub` claim
(empty or not) makes it raise `AttributeError` instead of returning a
user; `validate_refresh_token` returns `None` whenever decoding fails or
the `id` claim is absent or empty. -/
theorem token_validation_behaviour (cfg : Config) (tok : JwtToken)
    (db : DB) (now : Int) :
    ((jwtDecode tok cfg.SECRET_KEY [cfg.ALGORITHM] now = none ∨
        tok.claims.sub = none) →
      get_current_user cfg tok db now =
        .error (.http 401 "Could not validate credentials")) ∧
    (∀ u, get_current_user cfg tok db now ≠ .ok u) ∧
    ((jwtDecode tok cfg.SECRET_KEY [cfg.ALGORITHM] now = none ∨
        tok.claims.id = none ∨ tok.claims.id = some "") →
      validate_refresh_token cfg tok now = none) := by
  refine ⟨?_, ?_, ?_⟩
  · rintro (hdec | hsub)
    · simp [get_current_user, hdec]
    · unfold get_current_user
      cases hd : jwtDecode tok cfg.SECRET_KEY [cfg.ALGORITHM] now with
      | none => rfl
      | some payload =>
        have hp : payload = tok.claims := by
          rw [jwtDecode_single] at hd
          by_cases hc : tok.key = cfg.SECRET_KEY ∧ tok.alg = cfg.ALGORITHM ∧
              now < tok.claims.exp
          · rw [if_pos hc] at hd
            exact (Option.some.injEq _ _ ▸ hd).symm
          · rw [if_neg hc] at hd
            exact absurd hd (by simp)
        simp [hp, hsub]
  · intro u
    unfold get_current_user
    cases hd : jwtDecode tok cfg.SECRET_KEY [cfg.ALGORITHM] now with
    | none => simp
    | some payload =>
      rcases hs : payload.sub with _ | e <;> simp [hs]
  · rintro (hdec | hid | hid)
    · simp [validate_refresh_token, hdec]
    · unfold validate_refresh_token
      cases hd : jwtDecode tok cfg.SECRET_KEY [cfg.ALGORITHM] now with
      | none => rfl
      | some payload =>
        have hp : payload = tok.claims := by
          rw [jwtDecode_single] at hd
          by_cases hc : tok.key = cfg.SECRET_KEY ∧ tok.alg = cfg.ALGORITHM ∧
              now < tok.claims.exp
          · rw [if_pos hc] at hd
            exact (Option.some.injEq _ _ ▸ hd).symm
          · rw [if_neg hc] at hd
            exact absurd hd (by simp)
        simp [hp, hid]
    · unfold validate_refresh_token
      cases hd : jwtDecode tok cfg.SECRET_KEY [cfg.ALGORITHM] now with
      | none => rfl
      | some payload =>
        have hp : payload = tok.claims := by
          rw [jwtDecode_single] at hd
          by_cases hc : tok.key = cfg.SECRET_KEY ∧ tok.alg = cfg.ALGORITHM ∧
              now < tok.claims.exp
          · rw [if_pos hc] at hd
            exact (Option.some.injEq _ _ ▸ hd).symm
          · rw [if_neg hc] at hd
            exact absurd hd (by simp)
        simp [hp, hid]

/-- Witness for C4 amended: an expired token is answered with the 401
credentials exception and rejected by the refresh validator, and a token
with a subject is never returned as a user. -/
theorem token_validation_behaviour_witness :
    get_current_user cfg0 rt0 db1 2000 =
      .error (.http 401 "Could not validate credentials") ∧
    validate_refresh_token cfg0 rt0 2000 = none ∧
    ∀ u, get_current_user cfg0 tokEmptySub db1 0 ≠ .ok u :=
  ⟨(token_validation_behaviour cfg0 rt0 db1 2000).1 (Or.inl (by decide)),
    (token_validation_behaviour cfg0 rt0 db1 2000).2.2 (Or.inl (by decide)),
    (token_validation_behaviour cfg0 tokEmptySub db1 0).2.1⟩

/-! ## C10: the unreachable 404 of get_point_by_id -/

/-- The student fixture who, per the service comparison, owns the
fixture point. -/
def studentS : UserRec := { id := "s-user", email := "s@x.com", password := "ph" }

/-- The user behind the grading teacher. -/
def userT : UserRec := { id := "t-user", email := "t@x.com", password := "th" }

/-- The teacher row of the grading teacher. -/
def teacherT : TeacherRec := { id := "t-row", user_id := "t-user" }

/-- An unrelated non-admin principal. -/
def userO : UserRec := { id := "o-user", email := "o@x.com", password := "oh" }

/-- A super-admin principal with no teacher row. -/
def adminA : UserRec :=
  { id := "a-user", email := "admin@x.com", password := "ah", super_admin := true }

/-- The fixture point, owned by `studentS` and graded by `teacherT`. -/
def pointP : PointRec :=
  { id := "pt1", class_id := "c1", student_id := "s-user", teacher_id := "t-row",
    diligence := 8, test := 7, practice := 9, final := 6 }

/-- The fixture store for the point claims. -/
def dbOwned : DB :=
  { users := [studentS, userT, adminA, userO], teachers := [teacherT],
    points := [pointP] }

/-- C10 counterexample: the failure is not an attribute access on a
missing looked-up record — the identical `Point.deleted` class-attribute
error is raised when no record matches AND when the record exists and
the caller owns it, because the crash happens while building the query,
before any record is looked up or dereferenced. -/
theorem point_lookup_crashes_before_dereference :
    get_point_by_id { points := [] } "missing" studentS =
      .error pointDeletedError ∧
    get_point_by_id dbOwned "pt1" studentS = .error pointDeletedError := by
  refine ⟨rfl, rfl⟩

/-- C10 amended: for every point id — matching a record or not —
`get_point_by_id` never reaches its 404 "Point not found" branch; the
call fails before the record lookup with the `AttributeError` raised at
the nonexistent `Point.deleted` class attribute, so both the None check
and the ownership dereference are unreachable. -/
theorem missing_point_attribute_error (db : DB) (point_id : String)
    (user : UserRec) :
    get_point_by_id db point_id user = .error pointDeletedError ∧
    (∀ db2 pid2 user2, get_point_by_id db2 pid2 user2 ≠
      .error (.http 404 "Point not found")) := by
  refine ⟨rfl, ?_⟩
  intro db2 pid2 user2
  simp [get_point_by_id, pointDeletedError]

/-- Witness for C10 amended at a concrete empty store. -/
theorem missing_point_attribute_error_witness :
    get_point_by_id { points := [] } "nope" alice = .error pointDeletedError ∧
    get_point_by_id { points := [] } "nope" alice ≠
      .error (.http 404 "Point not found") :=
  ⟨(missing_point_attribute_error { points := [] } "nope" alice).1,
    (missing_point_attribute_error { points := [] } "nope" alice).2
      { points := [] } "nope" alice⟩

/-! ## C9: visibility of live points -/

/-- A concrete never-deleted point. -/
def livePoint : PointRec :=
  { id := "lp", class_id := "c1", student_id := "s1", teacher_id := "t1",
    diligence := 1, test := 2, practice := 3, final := 4 }

/-- A store holding only the live point. -/
def dbLive : DB := { points := [livePoint] }

/-- C9 counterexample: for the concrete live point, `delete_point` does
not report 404 as the claim states — it raises the `Point.deleted`
`AttributeError` before its lookup can run. -/
theorem live_point_no_404 :
    delete_point dbLive "lp" = .error pointDeletedError ∧
    delete_point dbLive "lp" ≠ .error (.http 404 "Point not found") := by
  refine ⟨rfl, by decide⟩

/-- C9 amended: no point record — live or deleted — is ever visible to
read, list or delete, but not because of a `deleted == True` filter:
every point query references the nonexistent `Point.deleted` column and
raises `AttributeError` before filtering, so `get_filtered_points` never
returns a list, `get_point_by_id` never returns a record, and
`delete_point` never finds anything and never reports 404. -/
theorem live_points_invisible (db : DB) :
    (∀ filters user res, get_filtered_points db filters user ≠ .ok res) ∧
    (∀ point_id user p, get_point_by_id db point_id user ≠ .ok p) ∧
    (∀ point_id, delete_point db point_id = .error pointDeletedError ∧
      delete_point db point_id ≠ .error (.http 404 "Point not found")) := by
  refine ⟨?_, ?_, ?_⟩
  · intro filters user res
    simp [get_filtered_points]
  · intro point_id user p
    simp [get_point_by_id]
  · intro point_id
    refine ⟨rfl, ?_⟩
    simp [delete_point, pointDeletedError]

/-- Witness for C9 amended at the concrete live-point store. -/
theorem live_points_invisible_witness :
    get_filtered_points dbLive [] alice ≠ .ok [livePoint] ∧
    get_point_by_id dbLive "lp" alice ≠ .ok livePoint ∧
    delete_point dbLive "lp" = .error pointDeletedError :=
  ⟨(live_points_invisible dbLive).1 [] alice [livePoint],
    (live_points_invisible dbLive).2.1 "lp" alice livePoint,
    ((live_points_invisible dbLive).2.2 "lp").1⟩

/-! ## C2: point ownership and access control -/

/-- C2 counterexample: at the fixture store, the owner student neither
reads nor updates the point the claim says they can — the read raises
the `Point.deleted` `AttributeError`, the update is answered 403 — and
the super-admin update raises the same `AttributeError` instead of
succeeding. -/
theorem owner_update_forbidden :
    pointP.student_id = studentS.id ∧
    studentS.super_admin = false ∧
    update_point dbOwned "pt1" {} studentS = .error (.http 403 "Forbidden") ∧
    get_point_by_id dbOwned "pt1" studentS = .error pointDeletedError ∧
    update_point dbOwned "pt1" {} adminA = .error pointDeletedError := by
  refine ⟨rfl, rfl, by decide, rfl, by decide⟩

/-- C2 amended: neither operation implements the claimed ownership rule,
because the `Point` model lacks the `deleted` column the service
queries.  `get_point_by_id` raises the `Point.deleted` `AttributeError`
for every caller — owner, grading teacher, super admin and stranger
alike — so no read ever succeeds or yields 403.  `update_point` answers
403 to any caller with no `Teacher` row who is not a super admin (in
particular the owner student), and raises the `Point.deleted`
`AttributeError` for every caller with a teacher row or with
`super_admin` set — so no update ever succeeds either. -/
theorem point_access_control (db : DB) (point_id : String) :
    (∀ user, get_point_by_id db point_id user = .error pointDeletedError) ∧
    (∀ user upd, db.teachers.find? (fun t => t.user_id == user.id) = none →
      user.super_admin = false →
      update_point db point_id upd user = .error (.http 403 "Forbidden")) ∧
    (∀ user upd,
      (db.teachers.find? (fun t => t.user_id == user.id)).isSome = true ∨
        user.super_admin = true →
      update_point db point_id upd user = .error pointDeletedError) := by
  refine ⟨?_, ?_, ?_⟩
  · intro user
    rfl
  · intro user upd hnone hsa
    unfold update_point
    rw [hnone]
    simp [hsa]
  · intro user upd h
    unfold update_point
    cases hf : db.teachers.find? (fun t => t.user_id == user.id) with
    | none =>
      rcases h with h | h
      · rw [hf] at h
        simp at h
      · simp [h]
    | some tr =>
      simp

/-- Witness for C2 amended at the fixture store: the owner student is
denied the update with 403, the owner read and the grading-teacher and
super-admin updates all raise the `Point.deleted` error. -/
theorem point_access_control_witness :
    get_point_by_id dbOwned "pt1" studentS = .error pointDeletedError ∧
    update_point dbOwned "pt1" {} studentS = .error (.http 403 "Forbidden") ∧
    update_point dbOwned "pt1" {} userT = .error pointDeletedError ∧
    update_point dbOwned "pt1" {} adminA = .error pointDeletedError := by
  have h := point_access_control dbOwned "pt1"
  exact ⟨h.1 studentS,
    h.2.1 studentS {} (by decide) rfl,
    h.2.2 userT {} (Or.inl (by decide)),
    h.2.2 adminA {} (Or.inr rfl)⟩

/-! ## C8: user deletion is physical, not soft -/

/-- Fixture store with a single user for the deletion claims. -/
def dbUser : DB :=
  { users := [{ id := "u9", email := "z@x.com", password := "h9" }] }

/-- C8 counterexample: deleting the stored user leaves a store with no
user row at all — the row is physically removed instead of being kept
with a deletion timestamp. -/
theorem delete_user_removes_row :
    delete_user_by_id dbUser "u9" =
      .ok { users := [], teachers := [], points := [] } ∧
    DB.users { users := [], teachers := [], points := [] } = [] := by
  refine ⟨by decide, rfl⟩

/-- C8 amended: `delete_user_by_id` on an existing user is a physical
delete — afterwards no row with that id remains in the store, and no
deletion timestamp is kept — and `delete_point` never completes a soft
delete at all: on every input it raises the `Point.deleted`
`AttributeError` while building its lookup, before its 404 check or its
timestamp assignment, and never returns an updated store. -/
theorem delete_semantics (db : DB) (user_id : String) (user : UserRec)
    (hfind : db.users.find? (fun u => u.id == user_id) = some user) :
    (∃ db2, delete_user_by_id db user_id = .ok db2 ∧
      ∀ u ∈ db2.users, u.id ≠ user_id) ∧
    (∀ pid, delete_point db pid = .error pointDeletedError ∧
      ∀ db3, delete_point db pid ≠ .ok db3) := by
  constructor
  · refine ⟨{ db with users := db.users.filter (fun u => !(u.id == user.id)) },
      ?_, ?_⟩
    · unfold delete_user_by_id
      rw [hfind]
    · intro u hu hcontra
      have hid : user.id = user_id := by simpa using List.find?_some hfind
      have hpred := (List.mem_filter.mp hu).2
      rw [hcontra, hid] at hpred
      simp at hpred
  · intro pid
    refine ⟨rfl, ?_⟩
    intro db3
    simp [delete_point]

/-- Witness for C8 amended at the one-user fixture store. -/
theorem delete_semantics_witness :
    (∃ db2, delete_user_by_id dbUser "u9" = .ok db2 ∧
      ∀ u ∈ db2.users, u.id ≠ "u9") ∧
    (∀ pid, delete_point dbUser pid = .error pointDeletedError ∧
      ∀ db3, delete_point dbUser pid ≠ .ok db3) :=
  delete_semantics dbUser "u9"
    { id := "u9", email := "z@x.com", password := "h9" } (by decide)

end UMS

namespace Reset

/-- Two members of a list of length at most one coincide. -/
theorem mem_of_length_le_one {α : Type} {l : List α} {a b : α}
    (h : l.length ≤ 1) (ha : a ∈ l) (hb : b ∈ l) : a = b := by
  match l with
  | [] => exact absurd ha (by simp)
  | [x] =>
    rw [List.mem_singleton] at ha hb
    rw [ha, hb]
  | x :: y :: xs => simp at h

/-- After erasing an element that passes a predicate from a list in which
at most one element passes it, no remaining element passes it. -/
theorem erase_removes_last {α : Type} [DecidableEq α] {p : α → Bool} :
    ∀ (l : List α) (a : α), (l.filter p).length ≤ 1 → a ∈ l → p a = true →
      ∀ b ∈ l.erase a, p b = false
  | [], a, _, ha, _ => absurd ha (by simp)
  | x :: xs, a, hlen, ha, hpa => by
    intro b hb
    rw [List.erase_cons] at hb
    by_cases hxa : x = a
    · rw [if_pos (by simp [hxa] : (x == a) = true)] at hb
      have hpx : p x = true := by rw [hxa]; exact hpa
      have hflt : xs.filter p = [] := by
        rw [List.filter_cons_of_pos hpx, List.length_cons] at hlen
        exact List.length_eq_zero.mp (by omega)
      by_cases hpb : p b = true
      · have hbf : b ∈ xs.filter p := List.mem_filter.mpr ⟨hb, hpb⟩
        rw [hflt] at hbf
        exact absurd hbf (by simp)
      · simpa using hpb
    · rw [if_neg (by simp [hxa] : ¬ (x == a) = true)] at hb
      have haxs : a ∈ xs := by
        rcases List.mem_cons.mp ha with h1 | h1
        · exact absurd h1.symm hxa
        · exact h1
      rcases List.mem_cons.mp hb with rfl | hbtail
      · by_cases hpx : p b = true
        · have hflt : xs.filter p = [] := by
            rw [List.filter_cons_of_pos hpx, List.length_cons] at hlen
            exact List.length_eq_zero.mp (by omega)
          have haf : a ∈ xs.filter p := List.mem_filter.mpr ⟨haxs, hpa⟩
          rw [hflt] at haf
          exact absurd haf (by simp)
        · simpa using hpx
      · have hlen2 : (xs.filter p).length ≤ 1 := by
          by_cases hpx : p x = true
          · rw [List.filter_cons_of_pos hpx, List.length_cons] at hlen
            omega
          · rw [List.filter_cons_of_neg (by simpa using hpx)] at hlen
            exact hlen
        exact erase_removes_last xs a hlen2 haxs hpa b hbtail

/-- The users table after a successful password update (the mapped form
that `update_user_password_by_id` commits). -/
def updatedUsers (st : RState) (user_id : Int) (pw : String) : List RUser :=
  st.users.map (fun u => if u.id == user_id then { u with password := pw } else u)

/-! ## C7: one-time password-reset redemption -/

/-- C7: `set_new_password` returns `True` exactly when a reset row for
the user exists, is unexpired, and stores exactly the submitted token; in
that case the stored password is replaced by the hash of the new one and
the row is deleted, so an immediately repeated redemption of the same
token returns `False`; in every other case it returns `False` and neither
the users nor the reset-token table changes.  Stated for a store whose
reset table holds at most one row per user and which contains the user
row. -/
theorem set_new_password_spec (st : RState) (user_id : Int)
    (token new_password : String) (now : Int)
    (huser : check_user_existence_by_id user_id st = true)
    (huniq : (st.reset_tokens.filter (fun r => r.user_id == user_id)).length ≤ 1) :
    ((∃ r ∈ st.reset_tokens, r.user_id = user_id ∧ now < r.expires ∧
        r.reset_token = token) →
      ∃ st2, set_new_password user_id token new_password now st =
          .ok (true, st2) ∧
        (∀ u ∈ st2.users, u.id = user_id →
          u.password = get_password_hash new_password) ∧
        (∀ r ∈ st2.reset_tokens, r.user_id ≠ user_id) ∧
        set_new_password user_id token new_password now st2 = .ok (false, st2)) ∧
    ((¬ ∃ r ∈ st.reset_tokens, r.user_id = user_id ∧ now < r.expires ∧
        r.reset_token = token) →
      set_new_password user_id token new_password now st = .ok (false, st)) := by
  constructor
  · rintro ⟨r, hrmem, hru, hrexp, hrtok⟩
    cases hf : st.reset_tokens.find? (fun x => x.user_id == user_id) with
    | none =>
      rw [List.find?_eq_none] at hf
      exact absurd (by simp [hru] : (fun x => x.user_id == user_id) r = true)
        (by simpa using hf r hrmem)
    | some r0 =>
      have hr0mem : r0 ∈ st.reset_tokens := List.mem_of_find?_eq_some hf
      have hr0uid : r0.user_id = user_id := by simpa using List.find?_some hf
      have hr0r : r0 = r := by
        apply mem_of_length_le_one huniq
        · exact List.mem_filter.mpr ⟨hr0mem, by simp [hr0uid]⟩
        · exact List.mem_filter.mpr ⟨hrmem, by simp [hru]⟩
      subst hr0r
      have hupd : update_user_password_by_id user_id
          (get_password_hash new_password) st =
          .ok { st with
            users := updatedUsers st user_id (get_password_hash new_password) } := by
        unfold update_user_password_by_id
        rw [if_pos huser]
        rfl
      refine ⟨RState.mk (updatedUsers st user_id (get_password_hash new_password))
          (st.reset_tokens.erase r0), ?_, ?_, ?_, ?_⟩
      · unfold set_new_password
        simp only [hf]
        rw [if_pos hrexp, if_pos (by simp [hrtok])]
        simp only [hupd]
      · intro u hu hid
        simp only [updatedUsers] at hu
        rcases List.mem_map.mp hu with ⟨u0, hu0, hmap⟩
        by_cases h0 : (u0.id == user_id) = true
        · rw [if_pos h0] at hmap
          rw [← hmap]
        · rw [if_neg h0] at hmap
          rw [← hmap] at hid
          exact absurd (by simp [hid]) h0
      · intro r2 hr2 hcontra
        have := erase_removes_last st.reset_tokens r0 huniq hr0mem
          (by simp [hr0uid]) r2 hr2
        rw [hcontra] at this
        simp at this
      · have hf2 : (st.reset_tokens.erase r0).find?
            (fun x => x.user_id == user_id) = none := by
          rw [List.find?_eq_none]
          intro x hx
          have := erase_removes_last st.reset_tokens r0 huniq hr0mem
            (by simp [hr0uid]) x hx
          simp [this]
        unfold set_new_password
        simp only [hf2]
  · intro hnot
    cases hf : st.reset_tokens.find? (fun x => x.user_id == user_id) with
    | none =>
      unfold set_new_password
      simp only [hf]
    | some r0 =>
      have hr0mem : r0 ∈ st.reset_tokens := List.mem_of_find?_eq_some hf
      have hr0uid : r0.user_id = user_id := by simpa using List.find?_some hf
      unfold set_new_password
      simp only [hf]
      by_cases hexp : now < r0.expires
      · have htok : ¬ r0.reset_token = token := by
          intro ht
          exact hnot ⟨r0, hr0mem, hr0uid, hexp, ht⟩
        rw [if_pos hexp, if_neg (by simpa using htok)]
      · rw [if_neg hexp]

/-- Users of the concrete reset fixture. -/
def stReset : RState :=
  { users := [{ id := 1, password := "bcrypt$old" }],
    reset_tokens := [{ user_id := 1, reset_token := "tok", expires := 100 }] }

/-- Witness for C7 at the concrete store: the valid redemption succeeds
exactly once and a wrong token is refused without changes. -/
theorem set_new_password_spec_witness :
    (∃ st2, set_new_password 1 "tok" "newpw" 0 stReset = .ok (true, st2) ∧
      (∀ u ∈ st2.users, u.id = 1 →
        u.password = get_password_hash "newpw") ∧
      (∀ r ∈ st2.reset_tokens, r.user_id ≠ 1) ∧
      set_new_password 1 "tok" "newpw" 0 st2 = .ok (false, st2)) ∧
    set_new_password 1 "bad" "newpw" 0 stReset = .ok (false, stReset) :=
  ⟨(set_new_password_spec stReset 1 "tok" "newpw" 0 (by decide) (by decide)).1
      ⟨{ user_id := 1, reset_token := "tok", expires := 100 }, by decide, rfl,
        by decide, rfl⟩,
    (set_new_password_spec stReset 1 "bad" "newpw" 0 (by decide) (by decide)).2
      (by decide)⟩

end Reset
